import Mathlib

/-!
Verification of the playwright-mcp-actor repository (src/main.py,
src/templates.py, src/export.py) against its natural-language spec.

The Python source is shallowly embedded: pure data (actions, results,
statistics) becomes Lean structures; the Playwright engine, which is an
external collaborator, is an explicit `Env` of primitive operations each
returning `Except String` (a raised Python exception is `.error msg`);
the orchestrator's loop becomes a recursive function threading the
mutable statistics, and observable side effects (dataset pushes, launch,
close) are recorded in an event trace.
-/

namespace PlaywrightMCP

/-- main.py `BrowserType` enum. -/
inductive BrowserType where
  | chromium | firefox | webkit
  deriving DecidableEq

/-- main.py `ActionType` enum: the closed set of supported actions. -/
inductive ActionType where
  | navigate | click | typeAct | fill | select | check | uncheck
  | screenshot | extract_text | extract_attributes | wait | scroll
  | hover | focus | press_key | get_html | evaluate | wait_for_element
  | get_title | get_url | go_back | go_forward | reload
  deriving DecidableEq

/-- The `.value` string of each ActionType member (Python str enum). -/
def ActionType.value : ActionType → String
  | .navigate => "navigate"
  | .click => "click"
  | .typeAct => "type"
  | .fill => "fill"
  | .select => "select"
  | .check => "check"
  | .uncheck => "uncheck"
  | .screenshot => "screenshot"
  | .extract_text => "extract_text"
  | .extract_attributes => "extract_attributes"
  | .wait => "wait"
  | .scroll => "scroll"
  | .hover => "hover"
  | .focus => "focus"
  | .press_key => "press_key"
  | .get_html => "get_html"
  | .evaluate => "evaluate"
  | .wait_for_element => "wait_for_element"
  | .get_title => "get_title"
  | .get_url => "get_url"
  | .go_back => "go_back"
  | .go_forward => "go_forward"
  | .reload => "reload"

/-- main.py `SelectorType` enum. -/
inductive SelectorType where
  | css | xpath | text | role | label | auto
  deriving DecidableEq

/-- The `.value` string of each SelectorType member. -/
def SelectorType.value : SelectorType → String
  | .css => "css"
  | .xpath => "xpath"
  | .text => "text"
  | .role => "role"
  | .label => "label"
  | .auto => "auto"

/-- An action's `value` field: Python `Union[str, int]`. -/
inductive Value where
  | s (v : String)
  | i (n : Int)
  deriving DecidableEq

/-- Python truthiness of a str/int value ("" and 0 are falsy). -/
def Value.truthy : Value → Bool
  | .s v => v ≠ ""
  | .i n => n ≠ 0

/-- Python `str()` of a str/int value. -/
def Value.toStr : Value → String
  | .s v => v
  | .i n => toString n

/-- Python truthiness of an optional value (None is falsy). -/
def truthyV : Option Value → Bool
  | none => false
  | some v => v.truthy

/-- Python truthiness of an optional string (None and "" are falsy). -/
def truthyS : Option String → Bool
  | none => false
  | some s => s ≠ ""

/-- main.py `Action` dataclass (the validated, typed command descriptor). -/
structure Action where
  type : ActionType
  selector : Option String := none
  value : Option Value := none
  selector_type : SelectorType := .auto
  timeout : Nat := 10000
  description : Option String := none
  metadata : Option Unit := none
  deriving DecidableEq

/-- The `output` payload of a result: a string, or the fixed attribute
record built by `_extract_attributes` (text, class, id, href, src, value,
placeholder), or an opaque value returned by `page.evaluate`. -/
inductive Output where
  | str (s : String)
  | attrs (text cls id href src value placeholder : Option String)
  | js (tag : Nat)
  deriving DecidableEq

/-- main.py `ActionResult` dataclass. -/
structure ActionResult where
  success : Bool
  action : Action
  output : Option Output := none
  error : Option String := none
  execution_time_ms : Nat := 0
  screenshot_base64 : Option String := none
  timestamp : String := ""
  deriving DecidableEq

/-- The per-action output record pushed to the dataset
(`ActionResult.to_dict`). An `Option` field that is `none`, and a
`has_screenshot` of `false`, model an absent key. -/
structure OutRecord where
  type : String
  success : Bool
  execution_time_ms : Nat
  output : Option Output
  timestamp : String
  selector : Option String
  value : Option Value
  description : Option String
  error : Option String
  has_screenshot : Bool
  deriving DecidableEq

/-- `ActionResult.to_dict`: flattens the action into the record; optional
keys are added only when the underlying field is Python-truthy. -/
def ActionResult.toDict (r : ActionResult) : OutRecord :=
  { type := r.action.type.value
    success := r.success
    execution_time_ms := r.execution_time_ms
    output := r.output
    timestamp := r.timestamp
    selector := if truthyS r.action.selector then r.action.selector else none
    value := if truthyV r.action.value then r.action.value else none
    description := if truthyS r.action.description then r.action.description else none
    error := if truthyS r.error then r.error else none
    has_screenshot := truthyS r.screenshot_base64 }

/-- A Playwright locator as built by `LocatorStrategy.find_element`:
either `page.locator(s)` with an engine-prefixed selector string, or
`page.get_by_text(s, exact=False)`. -/
inductive Locator where
  | sel (s : String)
  | byText (s : String)
  deriving DecidableEq

/-- Base64 alphabet used by `base64.b64encode`. -/
def b64Table : List Char :=
  "ABCDEFGHIJKLMNOPQRSTUVWXYZabcdefghijklmnopqrstuvwxyz0123456789+/".toList

/-- One base64 character for a 6-bit group. -/
def b64Char (n : Nat) : Char := b64Table.getD n 'A'

/-- Character list of the standard base64 encoding of a byte list. -/
def b64Chars : List Nat → List Char
  | [] => []
  | [a] =>
      [b64Char (a / 4 % 64), b64Char (a % 4 * 16), '=', '=']
  | [a, b] =>
      [b64Char (a / 4 % 64), b64Char (a % 4 * 16 + b / 16 % 16),
       b64Char (b % 16 * 4), '=']
  | a :: b :: c :: rest =>
      b64Char (a / 4 % 64) :: b64Char (a % 4 * 16 + b / 16 % 16) ::
      b64Char (b % 16 * 4 + c / 64 % 4) :: b64Char (c % 64) :: b64Chars rest

/-- `base64.b64encode(bytes).decode('utf-8')`. -/
def b64encode (bytes : List Nat) : String := String.mk (b64Chars bytes)

/-- Python `int(str)`: strips whitespace, accepts an optional sign and a
nonempty digit run; otherwise raises ValueError. -/
def parsePyInt (s : String) : Except String Int :=
  let t := s.trim
  let core := t.toList
  let signDigits : Bool × List Char :=
    match core with
    | '-' :: rest => (true, rest)
    | '+' :: rest => (false, rest)
    | l => (false, l)
  let ds := signDigits.2
  if ds ≠ [] ∧ ds.all Char.isDigit then
    let n : Nat := ds.foldl (fun a c => a * 10 + (c.toNat - '0'.toNat)) 0
    .ok (if signDigits.1 then -(n : Int) else (n : Int))
  else
    .error ("invalid literal for int() with base 10: '" ++ s ++ "'")

/-- Python `int(value)` on a str/int action value. -/
def pyInt : Value → Except String Int
  | .i n => .ok n
  | .s v => parsePyInt v

/-- The external Playwright/Apify environment: every primitive the source
awaits on the page, browser or lifecycle objects. An operation that the
engine completes normally is `.ok`; one that raises is `.error msg`.
`visible` is the outcome of `locator.first.wait_for(state="visible")`
within the given timeout (a raise and a timeout both read as `false`,
exactly as the source's `except (TimeoutError, Error): continue`). -/
structure Env where
  visible : Locator → Nat → Bool
  goto : String → Except String Unit
  url : String
  title : Except String String
  content : Except String String
  click : Locator → Nat → Except String Unit
  typeText : Locator → String → Except String Unit
  fill : Locator → String → Except String Unit
  selectOption : Locator → String → Except String Unit
  check : Locator → Except String Unit
  uncheck : Locator → Except String Unit
  hover : Locator → Except String Unit
  focus : Locator → Except String Unit
  press : Locator → String → Except String Unit
  textContent : Locator → Except String (Option String)
  innerHtml : Locator → Except String String
  getAttribute : Locator → String → Except String (Option String)
  evaluate : String → Except String (Option Output)
  screenshotBytes : Except String (List Nat)
  goBack : Except String Unit
  goForward : Except String Unit
  reload : Except String Unit
  startPlaywright : Except String Unit
  launchBrowser : BrowserType → Except String Unit
  newContext : Except String Unit
  addInitScript : String → Except String Unit
  newPage : Except String Unit
  closeContext : Bool → Except String Unit
  closeBrowser : Bool → Except String Unit
  stopPlaywright : Bool → Except String Unit
  execMs : Nat
  now : String

/-- The ordered strategy list `find_element` builds from the
selector_type: all four interpretations for `auto`, the single named one
otherwise. -/
def strategiesFor (st : SelectorType) (sel : String) : List (String × String) :=
  if st = .auto then
    [("css", sel), ("xpath", sel), ("text", sel), ("role", sel)]
  else
    [(st.value, sel)]

/-- The locator each strategy name constructs; `none` models the loop's
`else: continue` for a name that builds no locator. -/
def locatorFor (name v : String) : Option Locator :=
  if name = "css" then some (.sel ("css=" ++ v))
  else if name = "xpath" then some (.sel ("xpath=" ++ v))
  else if name = "text" then some (.byText v)
  else if name = "role" then some (.sel ("role=" ++ v))
  else none

/-- The `for strategy_name, strategy_value in strategies` loop of
`find_element`: first strategy whose locator becomes visible wins. -/
def findLoop (env : Env) (t : Nat) : List (String × String) → Option Locator
  | [] => none
  | (name, v) :: rest =>
    match locatorFor name v with
    | none => findLoop env t rest
    | some loc => if env.visible loc t then some loc else findLoop env t rest

/-- `LocatorStrategy.find_element`. -/
def find_element (env : Env) (sel : String) (st : SelectorType) (t : Nat) :
    Option Locator :=
  findLoop env t (strategiesFor st sel)

/-- The strategy names `find_element` actually attempts (an attempt =
building a locator and waiting for visibility), in order, stopping after
the first success. Instrumentation of the same loop. -/
def findAttemptsLoop (env : Env) (t : Nat) : List (String × String) → List String
  | [] => []
  | (name, v) :: rest =>
    match locatorFor name v with
    | none => findAttemptsLoop env t rest
    | some loc =>
      if env.visible loc t then [name] else name :: findAttemptsLoop env t rest

/-- The attempted-strategy log of `find_element`. -/
def find_attempts (env : Env) (sel : String) (st : SelectorType) (t : Nat) :
    List String :=
  findAttemptsLoop env t (strategiesFor st sel)

/-- What a handler hands back on success: the `output` payload and the
`screenshot_base64` field it set (both `none` for most actions). -/
abbrev HOut := Option Output × Option String

/-- `BrowserController._navigate`. -/
def _navigate (env : Env) (a : Action) : Except String HOut :=
  if ¬ truthyV a.value then .error "Navigate action requires 'value' (URL)"
  else
    match env.goto ((a.value.getD (.s "")).toStr) with
    | .error e => .error e
    | .ok _ => .ok (some (.str env.url), none)

/-- `BrowserController._click`. -/
def _click (env : Env) (a : Action) : Except String HOut :=
  if ¬ truthyS a.selector then .error "Click action requires 'selector'"
  else
    let sel := a.selector.getD ""
    match find_element env sel a.selector_type a.timeout with
    | none => .error ("Element not found: " ++ sel)
    | some loc =>
      match env.click loc a.timeout with
      | .error e => .error e
      | .ok _ => .ok (none, none)

/-- `BrowserController._type`. -/
def _type (env : Env) (a : Action) : Except String HOut :=
  if ¬ truthyS a.selector then .error "Type action requires 'selector'"
  else if a.value = none then .error "Type action requires 'value' (text to type)"
  else
    let sel := a.selector.getD ""
    match find_element env sel a.selector_type a.timeout with
    | none => .error ("Element not found: " ++ sel)
    | some loc =>
      match env.typeText loc ((a.value.getD (.s "")).toStr) with
      | .error e => .error e
      | .ok _ => .ok (none, none)

/-- `BrowserController._fill`. -/
def _fill (env : Env) (a : Action) : Except String HOut :=
  if ¬ truthyS a.selector then .error "Fill action requires 'selector'"
  else if a.value = none then .error "Fill action requires 'value'"
  else
    let sel := a.selector.getD ""
    match find_element env sel a.selector_type a.timeout with
    | none => .error ("Element not found: " ++ sel)
    | some loc =>
      match env.fill loc ((a.value.getD (.s "")).toStr) with
      | .error e => .error e
      | .ok _ => .ok (none, none)

/-- `BrowserController._select`. -/
def _select (env : Env) (a : Action) : Except String HOut :=
  if ¬ truthyS a.selector then .error "Select action requires 'selector'"
  else if a.value = none then .error "Select action requires 'value' (option value)"
  else
    let sel := a.selector.getD ""
    match find_element env sel a.selector_type a.timeout with
    | none => .error ("Element not found: " ++ sel)
    | some loc =>
      match env.selectOption loc ((a.value.getD (.s "")).toStr) with
      | .error e => .error e
      | .ok _ => .ok (none, none)

/-- `BrowserController._check`. -/
def _check (env : Env) (a : Action) : Except String HOut :=
  if ¬ truthyS a.selector then .error "Check action requires 'selector'"
  else
    let sel := a.selector.getD ""
    match find_element env sel a.selector_type a.timeout with
    | none => .error ("Element not found: " ++ sel)
    | some loc =>
      match env.check loc with
      | .error e => .error e
      | .ok _ => .ok (none, none)

/-- `BrowserController._uncheck`. -/
def _uncheck (env : Env) (a : Action) : Except String HOut :=
  if ¬ truthyS a.selector then .error "Uncheck action requires 'selector'"
  else
    let sel := a.selector.getD ""
    match find_element env sel a.selector_type a.timeout with
    | none => .error ("Element not found: " ++ sel)
    | some loc =>
      match env.uncheck loc with
      | .error e => .error e
      | .ok _ => .ok (none, none)

/-- `BrowserController._screenshot`: the inner `except` re-raises with a
"Screenshot failed: " prefix. -/
def _screenshot (env : Env) (_a : Action) : Except String HOut :=
  match env.screenshotBytes with
  | .error e => .error ("Screenshot failed: " ++ e)
  | .ok bytes =>
    .ok (some (.str ("Screenshot captured (" ++ toString bytes.length ++ " bytes)")),
         some (b64encode bytes))

/-- `BrowserController._extract_text`. -/
def _extract_text (env : Env) (a : Action) : Except String HOut :=
  if ¬ truthyS a.selector then
    match env.content with
    | .error e => .error e
    | .ok c => .ok (some (.str c), none)
  else
    let sel := a.selector.getD ""
    match find_element env sel a.selector_type a.timeout with
    | none => .error ("Element not found: " ++ sel)
    | some loc =>
      match env.textContent loc with
      | .error e => .error e
      | .ok t => .ok (t.map .str, none)

/-- `BrowserController._extract_attributes`: the fixed seven-field record. -/
def _extract_attributes (env : Env) (a : Action) : Except String HOut :=
  if ¬ truthyS a.selector then .error "Extract attributes requires 'selector'"
  else
    let sel := a.selector.getD ""
    match find_element env sel a.selector_type a.timeout with
    | none => .error ("Element not found: " ++ sel)
    | some loc =>
      match env.textContent loc with
      | .error e => .error e
      | .ok t =>
      match env.getAttribute loc "class" with
      | .error e => .error e
      | .ok cls =>
      match env.getAttribute loc "id" with
      | .error e => .error e
      | .ok idv =>
      match env.getAttribute loc "href" with
      | .error e => .error e
      | .ok href =>
      match env.getAttribute loc "src" with
      | .error e => .error e
      | .ok src =>
      match env.getAttribute loc "value" with
      | .error e => .error e
      | .ok val =>
      match env.getAttribute loc "placeholder" with
      | .error e => .error e
      | .ok ph => .ok (some (.attrs t cls idv href src val ph), none)

/-- `BrowserController._wait`: `asyncio.sleep(int(value)/1000)`; the int
conversion of a non-numeric string raises. -/
def _wait (_env : Env) (a : Action) : Except String HOut :=
  match a.value with
  | none => .error "Wait action requires 'value' (milliseconds)"
  | some v =>
    match pyInt v with
    | .error e => .error e
    | .ok _ => .ok (none, none)

/-- `BrowserController._scroll`. -/
def _scroll (env : Env) (a : Action) : Except String HOut :=
  match a.value with
  | none =>
    match env.evaluate "window.scrollTo(0, document.body.scrollHeight)" with
    | .error e => .error e
    | .ok _ => .ok (none, none)
  | some v =>
    match pyInt v with
    | .error e => .error e
    | .ok px =>
      match env.evaluate ("window.scrollBy(0, " ++ toString px ++ ")") with
      | .error e => .error e
      | .ok _ => .ok (none, none)

/-- `BrowserController._hover`. -/
def _hover (env : Env) (a : Action) : Except String HOut :=
  if ¬ truthyS a.selector then .error "Hover action requires 'selector'"
  else
    let sel := a.selector.getD ""
    match find_element env sel a.selector_type a.timeout with
    | none => .error ("Element not found: " ++ sel)
    | some loc =>
      match env.hover loc with
      | .error e => .error e
      | .ok _ => .ok (none, none)

/-- `BrowserController._focus`. -/
def _focus (env : Env) (a : Action) : Except String HOut :=
  if ¬ truthyS a.selector then .error "Focus action requires 'selector'"
  else
    let sel := a.selector.getD ""
    match find_element env sel a.selector_type a.timeout with
    | none => .error ("Element not found: " ++ sel)
    | some loc =>
      match env.focus loc with
      | .error e => .error e
      | .ok _ => .ok (none, none)

/-- `BrowserController._press_key` (note: the value check is truthiness,
unlike `_type`'s `is None` check). -/
def _press_key (env : Env) (a : Action) : Except String HOut :=
  if ¬ truthyS a.selector then .error "Press key action requires 'selector'"
  else if ¬ truthyV a.value then .error "Press key action requires 'value' (key name)"
  else
    let sel := a.selector.getD ""
    match find_element env sel a.selector_type a.timeout with
    | none => .error ("Element not found: " ++ sel)
    | some loc =>
      match env.press loc ((a.value.getD (.s "")).toStr) with
      | .error e => .error e
      | .ok _ => .ok (none, none)

/-- `BrowserController._get_html`. -/
def _get_html (env : Env) (a : Action) : Except String HOut :=
  if ¬ truthyS a.selector then
    match env.content with
    | .error e => .error e
    | .ok c => .ok (some (.str c), none)
  else
    let sel := a.selector.getD ""
    match find_element env sel a.selector_type a.timeout with
    | none => .error ("Element not found: " ++ sel)
    | some loc =>
      match env.innerHtml loc with
      | .error e => .error e
      | .ok h => .ok (some (.str h), none)

/-- `BrowserController._evaluate`. -/
def _evaluate (env : Env) (a : Action) : Except String HOut :=
  if ¬ truthyV a.value then .error "Evaluate action requires 'value' (JavaScript code)"
  else
    match env.evaluate ((a.value.getD (.s "")).toStr) with
    | .error e => .error e
    | .ok o => .ok (o, none)

/-- `BrowserController._wait_for_element`. -/
def _wait_for_element (env : Env) (a : Action) : Except String HOut :=
  if ¬ truthyS a.selector then .error "Wait for element requires 'selector'"
  else
    let sel := a.selector.getD ""
    match find_element env sel a.selector_type a.timeout with
    | none => .error ("Element not found or timeout: " ++ sel)
    | some _ => .ok (none, none)

/-- The dispatch chain of `execute_action`'s `try` block: one branch per
action type (the page-level five are inlined in the source and here). -/
def runHandler (env : Env) (a : Action) : Except String HOut :=
  match a.type with
  | .navigate => _navigate env a
  | .click => _click env a
  | .typeAct => _type env a
  | .fill => _fill env a
  | .select => _select env a
  | .check => _check env a
  | .uncheck => _uncheck env a
  | .screenshot => _screenshot env a
  | .extract_text => _extract_text env a
  | .extract_attributes => _extract_attributes env a
  | .wait => _wait env a
  | .scroll => _scroll env a
  | .hover => _hover env a
  | .focus => _focus env a
  | .press_key => _press_key env a
  | .get_html => _get_html env a
  | .evaluate => _evaluate env a
  | .wait_for_element => _wait_for_element env a
  | .get_title =>
    match env.title with
    | .error e => .error e
    | .ok t => .ok (some (.str t), none)
  | .get_url => .ok (some (.str env.url), none)
  | .go_back =>
    match env.goBack with
    | .error e => .error e
    | .ok _ => .ok (none, none)
  | .go_forward =>
    match env.goForward with
    | .error e => .error e
    | .ok _ => .ok (none, none)
  | .reload =>
    match env.reload with
    | .error e => .error e
    | .ok _ => .ok (none, none)

/-- `BrowserController.execute_action`: the result starts unsuccessful
with a timestamp; a handler that returns normally marks success and
stores its payload; any exception is caught into `error`. Elapsed time is
recorded on both paths. -/
def execute_action (env : Env) (a : Action) : ActionResult :=
  match runHandler env a with
  | .ok (out, shot) =>
    { success := true, action := a, output := out, error := none,
      execution_time_ms := env.execMs, screenshot_base64 := shot,
      timestamp := env.now }
  | .error e =>
    { success := false, action := a, output := none, error := some e,
      execution_time_ms := env.execMs, screenshot_base64 := none,
      timestamp := env.now }

/-- `PlaywrightMCPActor.stats`: the aggregate SessionStats dict. -/
structure Stats where
  total_actions : Nat
  successful_actions : Nat
  failed_actions : Nat
  total_execution_time_ms : Nat
  screenshots_captured : Nat
  deriving DecidableEq

/-- The zero statistics the actor starts with. -/
def Stats.start : Stats :=
  { total_actions := 0, successful_actions := 0, failed_actions := 0,
    total_execution_time_ms := 0, screenshots_captured := 0 }

/-- The stats update block the run loop performs after one action:
total, success/failure tally, screenshot tally (keyed on a truthy
`screenshot_base64`), cumulative time. -/
def stepStats (s : Stats) (r : ActionResult) : Stats :=
  { total_actions := s.total_actions + 1
    successful_actions := s.successful_actions + (if r.success then 1 else 0)
    failed_actions := s.failed_actions + (if r.success then 0 else 1)
    total_execution_time_ms := s.total_execution_time_ms + r.execution_time_ms
    screenshots_captured :=
      s.screenshots_captured + (if truthyS r.screenshot_base64 then 1 else 0) }

/-- A raw action dict of the run input or a template
(`action_data` in the source; `none` models an absent key). -/
structure ActionData where
  type : Option String := none
  selector : Option String := none
  value : Option Value := none
  selector_type : Option String := none
  timeout : Option Nat := none
  description : Option String := none
  metadata : Option Unit := none
  deriving DecidableEq

/-- `ActionType(s)`: the str-enum constructor; an unknown (or missing)
string raises ValueError. -/
def parseActionType : Option String → Except String ActionType
  | some "navigate" => .ok .navigate
  | some "click" => .ok .click
  | some "type" => .ok .typeAct
  | some "fill" => .ok .fill
  | some "select" => .ok .select
  | some "check" => .ok .check
  | some "uncheck" => .ok .uncheck
  | some "screenshot" => .ok .screenshot
  | some "extract_text" => .ok .extract_text
  | some "extract_attributes" => .ok .extract_attributes
  | some "wait" => .ok .wait
  | some "scroll" => .ok .scroll
  | some "hover" => .ok .hover
  | some "focus" => .ok .focus
  | some "press_key" => .ok .press_key
  | some "get_html" => .ok .get_html
  | some "evaluate" => .ok .evaluate
  | some "wait_for_element" => .ok .wait_for_element
  | some "get_title" => .ok .get_title
  | some "get_url" => .ok .get_url
  | some "go_back" => .ok .go_back
  | some "go_forward" => .ok .go_forward
  | some "reload" => .ok .reload
  | some s => .error ("'" ++ s ++ "' is not a valid ActionType")
  | none => .error "None is not a valid ActionType"

/-- `SelectorType(s)`. -/
def parseSelectorType : String → Except String SelectorType
  | "css" => .ok .css
  | "xpath" => .ok .xpath
  | "text" => .ok .text
  | "role" => .ok .role
  | "label" => .ok .label
  | "auto" => .ok .auto
  | s => .error ("'" ++ s ++ "' is not a valid SelectorType")

/-- `PlaywrightMCPActor._parse_action`. -/
def parseAction (ad : ActionData) : Except String Action :=
  match parseActionType ad.type with
  | .error e => .error e
  | .ok at_ =>
    match parseSelectorType (ad.selector_type.getD "auto") with
    | .error e => .error e
    | .ok st =>
      .ok { type := at_, selector := ad.selector, value := ad.value,
            selector_type := st, timeout := ad.timeout.getD 10000,
            description := ad.description, metadata := ad.metadata }

/-- `BrowserType(s)`. -/
def parseBrowserType : String → Except String BrowserType
  | "chromium" => .ok .chromium
  | "firefox" => .ok .firefox
  | "webkit" => .ok .webkit
  | s => .error ("'" ++ s ++ "' is not a valid BrowserType")

/-- `PlaywrightMCPActor._validate_input` called, as in the source, on the
one-key dict built from the resolved action list (so that dict is never
empty and always has the key; `none` models a missing "actions" key). -/
def validate_input (actions? : Option (List ActionData)) : Except String Unit :=
  match actions? with
  | none => .error "Input must contain 'actions' array"
  | some l =>
    if l.length = 0 then .error "'actions' array cannot be empty" else .ok ()

/-- Template params: `input.get("template_params", {})` as a partial map. -/
def Params := String → Option Value

/-- `params.get(key, default)`. -/
def getParam (p : Params) (k : String) (d : Value) : Value := (p k).getD d

/-- The evaluate-script text of a template is an opaque page script with
the numeric parameter interpolated; the exact JS text is elided in the
embedding (no claim observes it, and brace characters cannot appear in
embedded string literals). -/
def scriptText (tag : String) (n : Value) : String :=
  "<script " ++ tag ++ " " ++ n.toStr ++ ">"

/-- templates.py `TemplateManager._amazon_product_search`. -/
def _amazon_product_search (params : Params) : Except String (List ActionData) :=
  let search_query := getParam params "search_query" (.s "")
  let max_results := getParam params "max_results" (.i 20)
  if ¬ search_query.truthy then
    .error "search_query is required for amazon_product_search template"
  else
    .ok [
      { type := some "navigate", value := some (.s "https://www.amazon.com") },
      { type := some "fill", selector := some "input[name='field-keywords']",
        value := some search_query },
      { type := some "press_key", selector := some "input[name='field-keywords']",
        value := some (.s "Enter") },
      { type := some "wait_for_element",
        selector := some ".s-result-item[data-component-type='s-search-result']",
        timeout := some 10000 },
      { type := some "evaluate",
        value := some (.s (scriptText "amazon-results" max_results)) },
      { type := some "screenshot" }]

/-- templates.py `TemplateManager._google_search`. -/
def _google_search (params : Params) : Except String (List ActionData) :=
  let search_query := getParam params "search_query" (.s "")
  let max_results := getParam params "max_results" (.i 10)
  if ¬ search_query.truthy then
    .error "search_query is required for google_search template"
  else
    .ok [
      { type := some "navigate",
        value := some (.s ("https://www.google.com/search?q=" ++ search_query.toStr)) },
      { type := some "wait_for_element", selector := some "#search",
        timeout := some 10000 },
      { type := some "evaluate",
        value := some (.s (scriptText "google-results" max_results)) },
      { type := some "screenshot" }]

/-- templates.py `TemplateManager._linkedin_profile`. -/
def _linkedin_profile (params : Params) : Except String (List ActionData) :=
  let profile_url := getParam params "profile_url" (.s "")
  if ¬ profile_url.truthy then
    .error "profile_url is required for linkedin_profile template"
  else
    .ok [
      { type := some "navigate", value := some profile_url },
      { type := some "wait_for_element", selector := some ".pv-top-card",
        timeout := some 15000 },
      { type := some "evaluate",
        value := some (.s (scriptText "linkedin-profile" (.i 1))) },
      { type := some "screenshot" }]

/-- templates.py `TemplateManager._twitter_scrape`. -/
def _twitter_scrape (params : Params) : Except String (List ActionData) :=
  let username := getParam params "username" (.s "")
  let max_tweets := getParam params "max_tweets" (.i 10)
  if ¬ username.truthy then
    .error "username is required for twitter_scrape template"
  else
    .ok [
      { type := some "navigate",
        value := some (.s ("https://twitter.com/" ++ username.toStr)) },
      { type := some "wait_for_element", selector := some "article",
        timeout := some 10000 },
      { type := some "scroll", value := some (.s "1000") },
      { type := some "wait", value := some (.s "2000") },
      { type := some "evaluate",
        value := some (.s (scriptText "twitter-tweets" max_tweets)) },
      { type := some "screenshot" }]

/-- templates.py `TemplateManager._google_maps_business`. -/
def _google_maps_business (params : Params) : Except String (List ActionData) :=
  let search_query := getParam params "search_query" (.s "")
  let location := getParam params "location" (.s "")
  if ¬ search_query.truthy then
    .error "search_query is required for google_maps_business template"
  else
    let base := "https://www.google.com/maps/search/" ++ search_query.toStr
    let search_url := if location.truthy then base ++ "+" ++ location.toStr else base
    .ok [
      { type := some "navigate", value := some (.s search_url) },
      { type := some "wait_for_element", selector := some "[role='article']",
        timeout := some 10000 },
      { type := some "wait", value := some (.s "3000") },
      { type := some "evaluate",
        value := some (.s (scriptText "maps-businesses" (.i 20))) },
      { type := some "screenshot" }]

/-- templates.py `TemplateManager.get_template`: dispatch by template
name; unknown names raise ValueError. -/
def TemplateManager.get_template (t : String) (params : Params) :
    Except String (List ActionData) :=
  if t = "amazon_product_search" then _amazon_product_search params
  else if t = "google_search" then _google_search params
  else if t = "linkedin_profile" then _linkedin_profile params
  else if t = "twitter_scrape" then _twitter_scrape params
  else if t = "google_maps_business" then _google_maps_business params
  else .error ("Unknown template: " ++ t)

/-- The actor's run input dict; `none` models an absent key.
`template_params` defaults to the empty map when absent. -/
structure InputDict where
  actions : Option (List ActionData) := none
  template : Option String := none
  template_params : Params := fun _ => none
  browser_type : Option String := none
  headless : Option Bool := none
  proxy : Option Unit := none
  stealth_mode : Option Bool := none
  export_format : Option String := none

/-- Truthiness of `actor_input.get("actions")`: a present, nonempty list. -/
def truthyActions : Option (List ActionData) → Bool
  | none => false
  | some l => l ≠ []

/-- The built-in default input substituted for a missing/empty input
(or one whose "actions" entry is missing or empty). -/
def defaultActions : List ActionData :=
  [{ type := some "navigate", value := some (.s "https://example.com"),
     description := some "Navigate to example.com for testing" },
   { type := some "get_title",
     description := some "Get page title to verify page load" },
   { type := some "extract_text", selector := some "h1",
     description := some "Extract heading text" },
   { type := some "screenshot",
     description := some "Capture screenshot to verify rendering" }]

/-- The full default input dict of the source. -/
def defaultInput : InputDict :=
  { browser_type := some "chromium", headless := some true,
    stealth_mode := some false, actions := some defaultActions }

/-- The action-list resolution step of `run`: the template branch when a
truthy "template" is present (errors re-wrapped with a "Template error: "
prefix), else `input.get("actions", [])`. -/
def resolve_actions (inp : InputDict) : Except String (List ActionData) :=
  if truthyS inp.template then
    match TemplateManager.get_template (inp.template.getD "") inp.template_params with
    | .ok l => .ok l
    | .error e => .error ("Template error: " ++ e)
  else .ok (inp.actions.getD [])

/-- Which of the BrowserController's resource fields are non-None
(playwright handle, browser, context, page). -/
structure Controller where
  playwright : Bool := false
  browser : Bool := false
  context : Bool := false
  page : Bool := false
  deriving DecidableEq

/-- Which underlying engine resources are still open. -/
structure World where
  ctxOpen : Bool
  browserOpen : Bool
  pwRunning : Bool
  deriving DecidableEq

/-- The open-resource state right after (a possibly partial) launch. -/
def worldOf (c : Controller) : World :=
  { ctxOpen := c.context, browserOpen := c.browser, pwRunning := c.playwright }

/-- The anti-detection init script (content elided: no claim observes it,
and brace characters cannot appear in embedded string literals). -/
def stealthScript : String := "<stealth-init-script>"

/-- `BrowserController.launch`: playwright start, browser launch, context,
optional stealth init script, page — in order; a failing stage leaves the
earlier fields assigned and re-raises. Returns the controller state and
the raised error, if any. -/
def launch (env : Env) (bt : BrowserType) (stealth : Bool) :
    Controller × Option String :=
  match env.startPlaywright with
  | .error e => (⟨false, false, false, false⟩, some e)
  | .ok _ =>
  match env.launchBrowser bt with
  | .error e => (⟨true, false, false, false⟩, some e)
  | .ok _ =>
  match env.newContext with
  | .error e => (⟨true, true, false, false⟩, some e)
  | .ok _ =>
  match (if stealth then env.addInitScript stealthScript else .ok ()) with
  | .error e => (⟨true, true, true, false⟩, some e)
  | .ok _ =>
  match env.newPage with
  | .error e => (⟨true, true, true, false⟩, some e)
  | .ok _ => (⟨true, true, true, true⟩, none)

/-- The body of `BrowserController.close` before its `except`: close the
context if present, then the browser, then stop playwright; the first
engine error stops the sequence there (later resources stay open) and is
the caught exception. Returns the world reached and that error. -/
def closeAttempt (env : Env) (c : Controller) (w : World) : World × Option String :=
  if c.context then
    match env.closeContext w.ctxOpen with
    | .error e => (w, some e)
    | .ok _ =>
      let w1 : World := { w with ctxOpen := false }
      if c.browser then
        match env.closeBrowser w1.browserOpen with
        | .error e => (w1, some e)
        | .ok _ =>
          let w2 : World := { w1 with browserOpen := false }
          if c.playwright then
            match env.stopPlaywright w2.pwRunning with
            | .error e => (w2, some e)
            | .ok _ => ({ w2 with pwRunning := false }, none)
          else (w2, none)
      else
        if c.playwright then
          match env.stopPlaywright w1.pwRunning with
          | .error e => (w1, some e)
          | .ok _ => ({ w1 with pwRunning := false }, none)
        else (w1, none)
  else
    if c.browser then
      match env.closeBrowser w.browserOpen with
      | .error e => (w, some e)
      | .ok _ =>
        let w2 : World := { w with browserOpen := false }
        if c.playwright then
          match env.stopPlaywright w2.pwRunning with
          | .error e => (w2, some e)
          | .ok _ => ({ w2 with pwRunning := false }, none)
        else (w2, none)
    else
      if c.playwright then
        match env.stopPlaywright w.pwRunning with
        | .error e => (w, some e)
        | .ok _ => ({ w with pwRunning := false }, none)
      else (w, none)

/-- `BrowserController.close`: the whole body is wrapped in
`try ... except Exception: logger.error(...)`, so the caught engine error
is only logged; the caller sees a normal return. -/
def close (env : Env) (c : Controller) (w : World) : Except String World :=
  match closeAttempt env c w with
  | (w', _) => .ok w'

/-- The final run summary built by `_prepare_output`. -/
structure Summary where
  success : Bool
  stats : Stats
  actions : List OutRecord
  timestamp : String
  deriving DecidableEq

/-- `PlaywrightMCPActor._prepare_output`. -/
def prepare_output (st : Stats) (results : List ActionResult) (now : String) :
    Summary :=
  { success := st.failed_actions == 0
    stats := st
    actions := results.map ActionResult.toDict
    timestamp := now }

/-- Observable external effects of a run, in order: the default-input
substitution, a successful launch, the start of the i-th action
(1-based, the loop's log line), each `Actor.push_data` call (a per-action
record, the final summary, or the top-level failure record), the export
attempt, and the `finally` block's close call. -/
inductive Event where
  | substitutedDefault
  | launched
  | actionStart (i : Nat)
  | pushedResult (r : OutRecord)
  | exportTried (fmt : String)
  | pushedSummary (s : Summary)
  | pushedFailure (e : String) (st : Stats)
  | closeCalled
  deriving DecidableEq

/-- The `for i, action_data in enumerate(actions_data, 1)` loop: parse,
execute, append the result, update stats, push the record. A parse
failure raises out of the loop (after the start log, before any result
for that action); an executed action never raises. Returns the results
appended, the stats threaded through, the loop's trace, and the escaped
exception if any. -/
def runLoop (env : Env) (ads : List ActionData) (i : Nat) (st : Stats) :
    List ActionResult × Stats × List Event × Option String :=
  match ads with
  | [] => ([], st, [], none)
  | ad :: rest =>
    match parseAction ad with
    | .error e => ([], st, [.actionStart i], some e)
    | .ok a =>
      let r := execute_action env a
      let st1 := stepStats st r
      match runLoop env rest (i + 1) st1 with
      | (rs, st2, tr, err) =>
        (r :: rs, st2, .actionStart i :: .pushedResult r.toDict :: tr, err)

/-- The outcome of one whole `PlaywrightMCPActor.run` to the outside:
the exception escaping `run` (re-raised after the failure push), the
accumulated results and stats, the event trace, the pushed summary (on
the success path), the controller created (if the run got that far) and
the final engine resource state. -/
structure RunResult where
  raised : Option String
  results : List ActionResult
  stats : Stats
  trace : List Event
  summary : Option Summary
  controller : Option Controller
  world : World

/-- The condition under which `run` replaces the input with the default
one: `actor_input is None or not actor_input or (isinstance(actor_input,
dict) and not actor_input.get("actions"))` — for a dict, emptiness
implies a missing "actions" key, so the condition reduces to the
actions entry not being truthy. -/
def subInput (input0 : Option InputDict) : Bool :=
  match input0 with
  | none => true
  | some d => ¬ truthyActions d.actions

/-- The input `run` actually proceeds with after the substitution check. -/
def effInput (input0 : Option InputDict) : InputDict :=
  if subInput input0 then defaultInput else input0.getD defaultInput

/-- The trace prefix recording whether the default input was swapped in. -/
def subTrace (input0 : Option InputDict) : List Event :=
  if subInput input0 then [.substitutedDefault] else []

/-- The `try`/`except`/`finally` body of `PlaywrightMCPActor.run` after
the default-input substitution: the `try` block resolves the template,
validates, parses the browser type, creates the controller and launches,
runs the loop, builds and pushes the summary (after an optional export);
the `except` block pushes the failure record with the stats accumulated
so far and re-raises; the `finally` block closes the controller when one
was created. -/
def run_after_sub (inp : InputDict) (tr0 : List Event) (env : Env) : RunResult :=
  match resolve_actions inp with
  | .error e =>
    { raised := some e, results := [], stats := Stats.start,
      trace := tr0 ++ [.pushedFailure e Stats.start],
      summary := none, controller := none,
      world := ⟨false, false, false⟩ }
  | .ok ads =>
  match validate_input (some ads) with
  | .error e =>
    { raised := some e, results := [], stats := Stats.start,
      trace := tr0 ++ [.pushedFailure e Stats.start],
      summary := none, controller := none,
      world := ⟨false, false, false⟩ }
  | .ok _ =>
  match parseBrowserType (inp.browser_type.getD "chromium") with
  | .error e =>
    { raised := some e, results := [], stats := Stats.start,
      trace := tr0 ++ [.pushedFailure e Stats.start],
      summary := none, controller := none,
      world := ⟨false, false, false⟩ }
  | .ok bt =>
  match launch env bt (inp.stealth_mode.getD false) with
  | (ctrl, some e) =>
    { raised := some e, results := [], stats := Stats.start,
      trace := tr0 ++ [.pushedFailure e Stats.start, .closeCalled],
      summary := none, controller := some ctrl,
      world := (closeAttempt env ctrl (worldOf ctrl)).1 }
  | (ctrl, none) =>
  match runLoop env ads 1 Stats.start with
  | (rs, st, trL, some e) =>
    { raised := some e, results := rs, stats := st,
      trace := tr0 ++ [.launched] ++ trL ++ [.pushedFailure e st, .closeCalled],
      summary := none, controller := some ctrl,
      world := (closeAttempt env ctrl (worldOf ctrl)).1 }
  | (rs, st, trL, none) =>
    { raised := none, results := rs, stats := st,
      trace := tr0 ++ [.launched] ++ trL ++
               (if inp.export_format.getD "json" ≠ "json"
                then [.exportTried (inp.export_format.getD "json")] else []) ++
               [.pushedSummary (prepare_output st rs env.now), .closeCalled],
      summary := some (prepare_output st rs env.now), controller := some ctrl,
      world := (closeAttempt env ctrl (worldOf ctrl)).1 }

/-- `PlaywrightMCPActor.run`: the substitution check, then the body. -/
def run (input0 : Option InputDict) (env : Env) : RunResult :=
  run_after_sub (effInput input0) (subTrace input0) env

/-- The SessionStats invariant: every completed action is exactly one of
successful or failed. -/
def Stats.inv (s : Stats) : Prop :=
  s.total_actions = s.successful_actions + s.failed_actions

/-- The action types whose handler resolves the selector through
`LocatorStrategy.find_element` when a selector is present. -/
def usesFind : ActionType → Bool
  | .click | .typeAct | .fill | .select | .check | .uncheck
  | .extract_text | .extract_attributes | .hover | .focus
  | .press_key | .get_html | .wait_for_element => true
  | _ => false

/-- The value-field preconditions a handler checks before resolving the
selector (so that the failure observed is the element lookup's, not an
earlier validation error). -/
def valuePresentFor (a : Action) : Prop :=
  (a.type = .typeAct ∨ a.type = .fill ∨ a.type = .select → a.value ≠ none) ∧
  (a.type = .press_key → truthyV a.value = true)

/-- The expected loop segment of the run trace: for each result, its
start log entry then its pushed record, in submission order. -/
def loopTrace (rs : List ActionResult) (i : Nat) : List Event :=
  match rs with
  | [] => []
  | r :: rest => .actionStart i :: .pushedResult r.toDict :: loopTrace rest (i + 1)

/-- Whether an event belongs to the action loop (a start or a per-action
push). -/
def Event.isLoop : Event → Bool
  | .actionStart _ => true
  | .pushedResult _ => true
  | _ => false

/-- Well-formedness of the engine: a raised engine exception stringifies
to a nonempty message. (All exception texts the source itself builds are
nonempty literals; this assumption covers the messages Playwright
produces.) -/
structure ErrNonempty (env : Env) : Prop where
  goto : ∀ u e, env.goto u = .error e → e ≠ ""
  title : ∀ e, env.title = .error e → e ≠ ""
  content : ∀ e, env.content = .error e → e ≠ ""
  click : ∀ l t e, env.click l t = .error e → e ≠ ""
  typeText : ∀ l s e, env.typeText l s = .error e → e ≠ ""
  fill : ∀ l s e, env.fill l s = .error e → e ≠ ""
  selectOption : ∀ l s e, env.selectOption l s = .error e → e ≠ ""
  check : ∀ l e, env.check l = .error e → e ≠ ""
  uncheck : ∀ l e, env.uncheck l = .error e → e ≠ ""
  hover : ∀ l e, env.hover l = .error e → e ≠ ""
  focus : ∀ l e, env.focus l = .error e → e ≠ ""
  press : ∀ l s e, env.press l s = .error e → e ≠ ""
  textContent : ∀ l e, env.textContent l = .error e → e ≠ ""
  innerHtml : ∀ l e, env.innerHtml l = .error e → e ≠ ""
  getAttribute : ∀ l s e, env.getAttribute l s = .error e → e ≠ ""
  evaluate : ∀ s e, env.evaluate s = .error e → e ≠ ""
  goBack : ∀ e, env.goBack = .error e → e ≠ ""
  goForward : ∀ e, env.goForward = .error e → e ≠ ""
  reload : ∀ e, env.reload = .error e → e ≠ ""

/-- A concrete engine on which every primitive succeeds. -/
def envOk : Env :=
  { visible := fun _ _ => true
    goto := fun _ => .ok ()
    url := "https://example.com/"
    title := .ok "Example Domain"
    content := .ok "<html>ok</html>"
    click := fun _ _ => .ok ()
    typeText := fun _ _ => .ok ()
    fill := fun _ _ => .ok ()
    selectOption := fun _ _ => .ok ()
    check := fun _ => .ok ()
    uncheck := fun _ => .ok ()
    hover := fun _ => .ok ()
    focus := fun _ => .ok ()
    press := fun _ _ => .ok ()
    textContent := fun _ => .ok (some "Example Domain")
    innerHtml := fun _ => .ok "<h1>Example Domain</h1>"
    getAttribute := fun _ _ => .ok none
    evaluate := fun _ => .ok none
    screenshotBytes := .ok [72, 105]
    goBack := .ok ()
    goForward := .ok ()
    reload := .ok ()
    startPlaywright := .ok ()
    launchBrowser := fun _ => .ok ()
    newContext := .ok ()
    addInitScript := fun _ => .ok ()
    newPage := .ok ()
    closeContext := fun _ => .ok ()
    closeBrowser := fun _ => .ok ()
    stopPlaywright := fun _ => .ok ()
    execMs := 7
    now := "2026-10-12T00:00:00" }

/-- A concrete engine on which no element ever becomes visible (every
locator lookup times out) but everything else succeeds. -/
def envHidden : Env := { envOk with visible := fun _ _ => false }

/-- A concrete run input: one navigation and one click on a selector that
`envHidden` will not resolve. -/
def adNavigate : ActionData :=
  { type := some "navigate", value := some (.s "https://example.com") }

/-- A click action on a selector no strategy resolves under `envHidden`. -/
def adClickMissing : ActionData :=
  { type := some "click", selector := some "#missing" }

/-- Concrete input with two actions (the second will fail). -/
def inputTwo : InputDict := { actions := some [adNavigate, adClickMissing] }

/-- Concrete input naming a nonexistent template and nothing else. -/
def inputTemplateOnly : InputDict := { template := some "bogus_template" }

/-- Concrete input naming a nonexistent template next to a nonempty
actions array (so the default-input substitution leaves it intact). -/
def inputTemplateBad : InputDict :=
  { actions := some [adNavigate], template := some "bogus_template" }

/-- Concrete input naming a known template but omitting its required
parameter. -/
def inputTemplateNoParam : InputDict :=
  { actions := some [adNavigate], template := some "google_search" }

/-- A concrete click action whose selector no strategy resolves under
`envHidden`. -/
def actClickMissing : Action := { type := .click, selector := some "#missing" }

/-- A concrete label-typed click action. -/
def actLabelClick : Action :=
  { type := .click, selector := some "#x", selector_type := .label }

/-- A concrete screenshot action. -/
def actShot : Action := { type := .screenshot }

/-- The typed Action list that `_parse_action` produces from
`defaultActions`. -/
def defaultParsed : List Action :=
  [{ type := .navigate, value := some (.s "https://example.com"),
     description := some "Navigate to example.com for testing" },
   { type := .get_title, description := some "Get page title to verify page load" },
   { type := .extract_text, selector := some "h1",
     description := some "Extract heading text" },
   { type := .screenshot,
     description := some "Capture screenshot to verify rendering" }]

/-- Fallback summary used only to state closed witness instances. -/
def fallbackSummary : Summary :=
  { success := false, stats := Stats.start, actions := [], timestamp := "" }

-- ============================== Theorems ==============================

/-- A string with a nonempty prefix is nonempty. -/
theorem append_ne_empty (p s : String) (hp : p.data ≠ []) : p ++ s ≠ "" := by
  intro h
  have hd := congrArg String.data h
  rw [String.data_append] at hd
  cases hq : p.data with
  | nil => exact hp hq
  | cons c cs => rw [hq] at hd; simp at hd

/-- A three-part concatenation with a nonempty first part is nonempty. -/
theorem wrap_ne_empty (p s q : String) (hp : p.data ≠ []) : p ++ s ++ q ≠ "" := by
  intro h
  have hd := congrArg String.data h
  rw [String.data_append, String.data_append] at hd
  cases hq : p.data with
  | nil => exact hp hq
  | cons c cs => rw [hq] at hd; simp at hd

/-- `find_element` with selector_type `label` builds no locator at all. -/
theorem find_element_label (env : Env) (sel : String) (t : Nat) :
    find_element env sel .label t = none := by
  simp [find_element, strategiesFor, SelectorType.value, findLoop, locatorFor]

/-- C3: element resolution with selector_type `auto` tries the same
selector string as CSS, XPath, literal text and role, in that fixed
order, returns the locator of the first interpretation that is visible
(attempting no later strategy after a success), with an explicit
selector_type attempts only that one strategy, and when every attempted
strategy fails it returns `none` rather than raising. -/
theorem C3_locator_fallback_order (env : Env) (sel : String) (t : Nat) :
    (find_element env sel .auto t =
      (if env.visible (.sel ("css=" ++ sel)) t then some (.sel ("css=" ++ sel))
       else if env.visible (.sel ("xpath=" ++ sel)) t then some (.sel ("xpath=" ++ sel))
       else if env.visible (.byText sel) t then some (.byText sel)
       else if env.visible (.sel ("role=" ++ sel)) t then some (.sel ("role=" ++ sel))
       else none)) ∧
    (find_attempts env sel .auto t =
      (if env.visible (.sel ("css=" ++ sel)) t then ["css"]
       else if env.visible (.sel ("xpath=" ++ sel)) t then ["css", "xpath"]
       else if env.visible (.byText sel) t then ["css", "xpath", "text"]
       else ["css", "xpath", "text", "role"])) ∧
    (find_element env sel .css t =
      (if env.visible (.sel ("css=" ++ sel)) t then some (.sel ("css=" ++ sel)) else none) ∧
     find_attempts env sel .css t = ["css"]) ∧
    (find_element env sel .xpath t =
      (if env.visible (.sel ("xpath=" ++ sel)) t then some (.sel ("xpath=" ++ sel)) else none) ∧
     find_attempts env sel .xpath t = ["xpath"]) ∧
    (find_element env sel .text t =
      (if env.visible (.byText sel) t then some (.byText sel) else none) ∧
     find_attempts env sel .text t = ["text"]) ∧
    (find_element env sel .role t =
      (if env.visible (.sel ("role=" ++ sel)) t then some (.sel ("role=" ++ sel)) else none) ∧
     find_attempts env sel .role t = ["role"]) := by
  refine ⟨?_, ?_, ⟨?_, ?_⟩, ⟨?_, ?_⟩, ⟨?_, ?_⟩, ⟨?_, ?_⟩⟩ <;>
    simp [find_element, find_attempts, strategiesFor, findLoop, findAttemptsLoop,
          locatorFor, SelectorType.value]
  split_ifs <;> rfl

/-- C9: "label" is accepted by the SelectorType interface, yet element
resolution for it unconditionally returns "not found" (the strategy loop
builds a locator only for css/xpath/text/role), so every
selector-requiring action executed with selector_type `label` and a
nonempty selector fails with an element-not-found error, regardless of
the engine, selector string or timeout. -/
theorem C9_label_selector_always_fails :
    parseSelectorType "label" = .ok .label ∧
    (∀ (env : Env) (sel : String) (t : Nat), find_element env sel .label t = none) ∧
    (∀ (env : Env) (a : Action) (s : String),
      a.selector_type = .label → a.selector = some s → s ≠ "" →
      usesFind a.type = true → valuePresentFor a →
      (execute_action env a).success = false ∧
        ((execute_action env a).error = some ("Element not found: " ++ s) ∨
         (execute_action env a).error = some ("Element not found or timeout: " ++ s))) := by
  refine ⟨rfl, find_element_label, ?_⟩
  intro env a s hst hsel hs huse hval
  obtain ⟨hv1, hv2⟩ := hval
  cases a with
  | mk ty sel? val? st? to? desc? meta? =>
    simp only at hst hsel
    subst hst hsel
    cases ty <;> simp [usesFind] at huse
    case click =>
      simp [execute_action, runHandler, _click, truthyS, hs, find_element_label]
    case typeAct =>
      have hv := hv1 (Or.inl rfl)
      simp only at hv
      simp [execute_action, runHandler, _type, truthyS, hs, hv, find_element_label]
    case fill =>
      have hv := hv1 (Or.inr (Or.inl rfl))
      simp only at hv
      simp [execute_action, runHandler, _fill, truthyS, hs, hv, find_element_label]
    case select =>
      have hv := hv1 (Or.inr (Or.inr rfl))
      simp only at hv
      simp [execute_action, runHandler, _select, truthyS, hs, hv, find_element_label]
    case check =>
      simp [execute_action, runHandler, _check, truthyS, hs, find_element_label]
    case uncheck =>
      simp [execute_action, runHandler, _uncheck, truthyS, hs, find_element_label]
    case extract_text =>
      simp [execute_action, runHandler, _extract_text, truthyS, hs, find_element_label]
    case extract_attributes =>
      simp [execute_action, runHandler, _extract_attributes, truthyS, hs,
            find_element_label]
    case hover =>
      simp [execute_action, runHandler, _hover, truthyS, hs, find_element_label]
    case focus =>
      simp [execute_action, runHandler, _focus, truthyS, hs, find_element_label]
    case press_key =>
      have hv := hv2 rfl
      simp only at hv
      simp [execute_action, runHandler, _press_key, truthyS, hs, hv, find_element_label]
    case get_html =>
      simp [execute_action, runHandler, _get_html, truthyS, hs, find_element_label]
    case wait_for_element =>
      simp [execute_action, runHandler, _wait_for_element, truthyS, hs,
            find_element_label]

/-- Witness for C9 at a concrete action and engine. -/
theorem C9_witness :
    (execute_action envOk actLabelClick).success = false ∧
      ((execute_action envOk actLabelClick).error = some ("Element not found: " ++ "#x") ∨
       (execute_action envOk actLabelClick).error =
         some ("Element not found or timeout: " ++ "#x")) :=
  C9_label_selector_always_fails.2.2 envOk actLabelClick "#x" rfl rfl (by decide) rfl
    ⟨fun h => by rcases h with h | h | h <;> exact absurd h (by decide),
     fun h => absurd h (by decide)⟩

/-- A non-numeric wait/scroll value raises with a nonempty message. -/
theorem pyInt_error_ne (v : Value) (e : String) (h : pyInt v = .error e) : e ≠ "" := by
  cases v with
  | i n => exact Except.noConfusion h
  | s str =>
    simp only [pyInt, parsePyInt] at h
    split at h
    · exact Except.noConfusion h
    · injection h with h1; subst h1; exact wrap_ne_empty _ _ _ (by decide)

/-- Selector-resolving handlers whose success payload is empty: an
element-not-found failure or an engine failure of the element operation,
both with nonempty messages. -/
theorem matchOp_error (env : Env) (sel : String) (st : SelectorType) (tmo : Nat)
    (op : Locator → Except String Unit)
    (hop : ∀ l e, op l = .error e → e ≠ "") (e : String)
    (h : (match find_element env sel st tmo with
          | none => Except.error ("Element not found: " ++ sel)
          | some loc =>
            match op loc with
            | .error e => .error e
            | .ok _ => .ok ((none : Option Output), (none : Option String))) =
         Except.error e) :
    e ≠ "" := by
  split at h
  · injection h with h1; subst h1; exact append_ne_empty _ _ (by decide)
  · split at h
    · rename_i e' ho
      injection h with h1; subst h1; exact hop _ _ ho
    · exact Except.noConfusion h

/-- Every exception `execute_action` catches stringifies to a nonempty
message, assuming the engine's exception messages are nonempty (the
source's own validation and not-found messages are nonempty literals). -/
theorem runHandler_error_ne (env : Env) (he : ErrNonempty env) (a : Action) (e : String)
    (h : runHandler env a = .error e) : e ≠ "" := by
  obtain ⟨ty, sel?, val?, st?, to?, desc?, meta?⟩ := a
  cases ty
  case navigate =>
    simp only [runHandler, _navigate] at h
    split at h
    · injection h with h1; subst h1; decide
    · split at h
      · rename_i e' hg
        injection h with h1; subst h1; exact he.goto _ _ hg
      · exact Except.noConfusion h
  case click =>
    simp only [runHandler, _click] at h
    split at h
    · injection h with h1; subst h1; decide
    · exact matchOp_error env _ _ _ _ (fun l e' hcl => he.click _ _ _ hcl) e h
  case typeAct =>
    simp only [runHandler, _type] at h
    split at h
    · injection h with h1; subst h1; decide
    · split at h
      · injection h with h1; subst h1; decide
      · exact matchOp_error env _ _ _ _ (fun l e' hcl => he.typeText _ _ _ hcl) e h
  case fill =>
    simp only [runHandler, _fill] at h
    split at h
    · injection h with h1; subst h1; decide
    · split at h
      · injection h with h1; subst h1; decide
      · exact matchOp_error env _ _ _ _ (fun l e' hcl => he.fill _ _ _ hcl) e h
  case select =>
    simp only [runHandler, _select] at h
    split at h
    · injection h with h1; subst h1; decide
    · split at h
      · injection h with h1; subst h1; decide
      · exact matchOp_error env _ _ _ _ (fun l e' hcl => he.selectOption _ _ _ hcl) e h
  case check =>
    simp only [runHandler, _check] at h
    split at h
    · injection h with h1; subst h1; decide
    · exact matchOp_error env _ _ _ _ (fun l e' hcl => he.check _ _ hcl) e h
  case uncheck =>
    simp only [runHandler, _uncheck] at h
    split at h
    · injection h with h1; subst h1; decide
    · exact matchOp_error env _ _ _ _ (fun l e' hcl => he.uncheck _ _ hcl) e h
  case screenshot =>
    simp only [runHandler, _screenshot] at h
    split at h
    · injection h with h1; subst h1; exact append_ne_empty _ _ (by decide)
    · exact Except.noConfusion h
  case extract_text =>
    simp only [runHandler, _extract_text] at h
    split at h
    · split at h
      · rename_i e' hc
        injection h with h1; subst h1; exact he.content _ hc
      · exact Except.noConfusion h
    · split at h
      · injection h with h1; subst h1; exact append_ne_empty _ _ (by decide)
      · split at h
        · rename_i e' htc
          injection h with h1; subst h1; exact he.textContent _ _ htc
        · exact Except.noConfusion h
  case extract_attributes =>
    simp only [runHandler, _extract_attributes] at h
    split at h
    · injection h with h1; subst h1; decide
    · split at h
      · injection h with h1; subst h1; exact append_ne_empty _ _ (by decide)
      · split at h
        · rename_i e1 hx1
          injection h with hx; subst hx; exact he.textContent _ _ hx1
        · split at h
          · rename_i e2 hx2
            injection h with hx; subst hx; exact he.getAttribute _ _ _ hx2
          · split at h
            · rename_i e3 hx3
              injection h with hx; subst hx; exact he.getAttribute _ _ _ hx3
            · split at h
              · rename_i e4 hx4
                injection h with hx; subst hx; exact he.getAttribute _ _ _ hx4
              · split at h
                · rename_i e5 hx5
                  injection h with hx; subst hx; exact he.getAttribute _ _ _ hx5
                · split at h
                  · rename_i e6 hx6
                    injection h with hx; subst hx; exact he.getAttribute _ _ _ hx6
                  · split at h
                    · rename_i e7 hx7
                      injection h with hx; subst hx; exact he.getAttribute _ _ _ hx7
                    · exact Except.noConfusion h
  case wait =>
    simp only [runHandler, _wait] at h
    split at h
    · injection h with h1; subst h1; decide
    · split at h
      · rename_i e' hp
        injection h with h1; subst h1; exact pyInt_error_ne _ _ hp
      · exact Except.noConfusion h
  case scroll =>
    simp only [runHandler, _scroll] at h
    split at h
    · split at h
      · rename_i e' hv
        injection h with h1; subst h1; exact he.evaluate _ _ hv
      · exact Except.noConfusion h
    · split at h
      · rename_i e' hp
        injection h with h1; subst h1; exact pyInt_error_ne _ _ hp
      · split at h
        · rename_i e'' hv
          injection h with h1; subst h1; exact he.evaluate _ _ hv
        · exact Except.noConfusion h
  case hover =>
    simp only [runHandler, _hover] at h
    split at h
    · injection h with h1; subst h1; decide
    · exact matchOp_error env _ _ _ _ (fun l e' hcl => he.hover _ _ hcl) e h
  case focus =>
    simp only [runHandler, _focus] at h
    split at h
    · injection h with h1; subst h1; decide
    · exact matchOp_error env _ _ _ _ (fun l e' hcl => he.focus _ _ hcl) e h
  case press_key =>
    simp only [runHandler, _press_key] at h
    split at h
    · injection h with h1; subst h1; decide
    · split at h
      · injection h with h1; subst h1; decide
      · exact matchOp_error env _ _ _ _ (fun l e' hcl => he.press _ _ _ hcl) e h
  case get_html =>
    simp only [runHandler, _get_html] at h
    split at h
    · split at h
      · rename_i e' hc
        injection h with h1; subst h1; exact he.content _ hc
      · exact Except.noConfusion h
    · split at h
      · injection h with h1; subst h1; exact append_ne_empty _ _ (by decide)
      · split at h
        · rename_i e' hi
          injection h with h1; subst h1; exact he.innerHtml _ _ hi
        · exact Except.noConfusion h
  case evaluate =>
    simp only [runHandler, _evaluate] at h
    split at h
    · injection h with h1; subst h1; decide
    · split at h
      · rename_i e' hv
        injection h with h1; subst h1; exact he.evaluate _ _ hv
      · exact Except.noConfusion h
  case wait_for_element =>
    simp only [runHandler, _wait_for_element] at h
    split at h
    · injection h with h1; subst h1; decide
    · split at h
      · injection h with h1; subst h1; exact append_ne_empty _ _ (by decide)
      · exact Except.noConfusion h
  case get_title =>
    simp only [runHandler] at h
    split at h
    · rename_i e' ht
      injection h with h1; subst h1; exact he.title _ ht
    · exact Except.noConfusion h
  case get_url =>
    simp only [runHandler] at h
    exact Except.noConfusion h
  case go_back =>
    simp only [runHandler] at h
    split at h
    · rename_i e' hb
      injection h with h1; subst h1; exact he.goBack _ hb
    · exact Except.noConfusion h
  case go_forward =>
    simp only [runHandler] at h
    split at h
    · rename_i e' hb
      injection h with h1; subst h1; exact he.goForward _ hb
    · exact Except.noConfusion h
  case reload =>
    simp only [runHandler] at h
    split at h
    · rename_i e' hb
      injection h with h1; subst h1; exact he.reload _ hb
    · exact Except.noConfusion h

/-- C4: for every executed Action the produced ActionResult carries an
error message iff success is false, and every failed result is visible
with a nonempty error string in the per-action output record (given the
engine well-formedness `ErrNonempty`: a raised engine exception
stringifies to a nonempty message — every message the source itself
builds is a nonempty literal). -/
theorem C4_error_iff_failure (env : Env) (he : ErrNonempty env) (a : Action) :
    ((execute_action env a).error.isSome ↔ (execute_action env a).success = false) ∧
    ((execute_action env a).success = false →
      ∃ m, (execute_action env a).error = some m ∧ m ≠ "" ∧
        (execute_action env a).toDict.error = some m) := by
  rcases hr : runHandler env a with e | p
  · have hne : e ≠ "" := runHandler_error_ne env he a e hr
    constructor
    · simp [execute_action, hr]
    · intro _
      refine ⟨e, ?_, hne, ?_⟩
      · simp [execute_action, hr]
      · simp [execute_action, hr, ActionResult.toDict, truthyS, hne]
  · obtain ⟨o, sh⟩ := p
    constructor
    · simp [execute_action, hr]
    · intro hs
      rw [show (execute_action env a).success = true from by simp [execute_action, hr]]
        at hs
      exact absurd hs (by simp)

/-- Witness for C4 at a concrete engine and action (the click fails under
`envHidden`, whose primitives never raise, so `ErrNonempty` holds). -/
theorem C4_witness :
    ∃ m, (execute_action envHidden actClickMissing).error = some m ∧ m ≠ "" ∧
      (execute_action envHidden actClickMissing).toDict.error = some m :=
  (C4_error_iff_failure envHidden
      (by constructor <;> (intros; simp_all [envHidden, envOk]))
      actClickMissing).2 (by decide)

/-- One stats update preserves the total = successful + failed invariant. -/
theorem stepStats_inv (s : Stats) (r : ActionResult) (h : s.inv) :
    (stepStats s r).inv := by
  unfold Stats.inv stepStats at *
  cases r.success <;> simp <;> omega

/-- The run loop preserves the stats invariant at every step. -/
theorem runLoop_stats_inv (env : Env) (ads : List ActionData) :
    ∀ (i : Nat) (st : Stats), st.inv → ((runLoop env ads i st).2.1).inv := by
  induction ads with
  | nil => intro i st h; simpa [runLoop] using h
  | cons ad rest ih =>
    intro i st h
    simp only [runLoop]
    cases hp : parseAction ad with
    | error e => simpa using h
    | ok a =>
      have h1 := stepStats_inv st (execute_action env a) h
      have h2 := ih (i + 1) (stepStats st (execute_action env a)) h1
      rcases hr : runLoop env rest (i + 1) (stepStats st (execute_action env a))
        with ⟨rs, st2, tr, err⟩
      rw [hr] at h2
      simpa [hr] using h2

/-- Tuple-form of `runLoop_stats_inv`, for use against a match equation. -/
theorem runLoop_stats_inv_eq (env : Env) (ads : List ActionData) (i : Nat)
    (st : Stats) (rs : List ActionResult) (st2 : Stats) (tr : List Event)
    (err : Option String) (h : st.inv)
    (heq : runLoop env ads i st = (rs, st2, tr, err)) : st2.inv := by
  have h2 := runLoop_stats_inv env ads i st h
  rw [heq] at h2
  exact h2

/-- C2: `total_actions = successful_actions + failed_actions` holds at
every observation point after an action completes (the stats value after
the k-th action is the loop's stats over the k-prefix) and at run end. -/
theorem C2_stats_invariant :
    (∀ (env : Env) (ads : List ActionData) (k : Nat),
      ((runLoop env (ads.take k) 1 Stats.start).2.1).inv) ∧
    (∀ (input0 : Option InputDict) (env : Env), ((run input0 env).stats).inv) := by
  have hstart : Stats.start.inv := by simp [Stats.inv, Stats.start]
  constructor
  · intro env ads k
    exact runLoop_stats_inv env (ads.take k) 1 Stats.start hstart
  · intro input0 env
    unfold run run_after_sub
    split
    · exact hstart
    · split
      · exact hstart
      · split
        · exact hstart
        · split
          · exact hstart
          · split <;> rename_i hloop <;>
              exact runLoop_stats_inv_eq env _ _ _ _ _ _ _ hstart hloop

/-- A result always carries back the action it executed. -/
theorem execute_action_action (env : Env) (a : Action) :
    (execute_action env a).action = a := by
  unfold execute_action
  split <;> rfl

/-- When every raw action parses, the loop runs to the end: it returns
one result per action in submission order (each the execution of its
parsed action), folds the stats over exactly those results, emits the
interleaved start/push trace, and raises nothing — regardless of which
individual actions fail. -/
theorem runLoop_ok_spec (env : Env) :
    ∀ (ads : List ActionData) (i : Nat) (st : Stats),
      (∀ ad ∈ ads, ∃ a, parseAction ad = .ok a) →
      ∃ rs, runLoop env ads i st = (rs, rs.foldl stepStats st, loopTrace rs i, none) ∧
        List.Forall₂ (fun ad r => parseAction ad = .ok r.action ∧
          r = execute_action env r.action) ads rs := by
  intro ads
  induction ads with
  | nil =>
    intro i st _
    exact ⟨[], by simp [runLoop, loopTrace], List.Forall₂.nil⟩
  | cons ad rest ih =>
    intro i st hp
    obtain ⟨a, ha⟩ := hp ad (by simp)
    obtain ⟨rs, hrec, hf⟩ :=
      ih (i + 1) (stepStats st (execute_action env a))
        (fun x hx => hp x (by simp [hx]))
    refine ⟨execute_action env a :: rs, ?_, ?_⟩
    · simp only [runLoop, ha, hrec, loopTrace, List.foldl]
    · exact List.Forall₂.cons
        ⟨by rw [execute_action_action]; exact ha,
         by rw [execute_action_action]⟩ hf

/-- C1: when the effective action list parses and the session launches,
the run raises nothing, produces exactly one result per action in
submission order, and the trace interleaves each action's start strictly
after the previous result's push (so result i is emitted before action
i+1 begins); no individual action failure shortens the list. -/
theorem C1_sequential_results (env : Env) (inp : InputDict) (ads : List ActionData)
    (bt : BrowserType)
    (hsub : truthyActions inp.actions = true)
    (hres : resolve_actions inp = .ok ads)
    (hne : ads ≠ [])
    (hbt : parseBrowserType (inp.browser_type.getD "chromium") = .ok bt)
    (hl : (launch env bt (inp.stealth_mode.getD false)).2 = none)
    (hp : ∀ ad ∈ ads, ∃ a, parseAction ad = .ok a) :
    (run (some inp) env).raised = none ∧
    (run (some inp) env).results.length = ads.length ∧
    List.Forall₂ (fun ad r => parseAction ad = .ok r.action ∧
      r = execute_action env r.action) ads (run (some inp) env).results ∧
    ∃ pre post, (run (some inp) env).trace =
        pre ++ loopTrace (run (some inp) env).results 1 ++ post ∧
      (∀ ev ∈ pre, ev.isLoop = false) ∧ (∀ ev ∈ post, ev.isLoop = false) := by
  obtain ⟨rs, hloop, hf⟩ := runLoop_ok_spec env ads 1 Stats.start hp
  have heff : effInput (some inp) = inp := by
    simp [effInput, subInput, hsub]
  have htr0 : subTrace (some inp) = [] := by
    simp [subTrace, subInput, hsub]
  rcases hlp : launch env bt (inp.stealth_mode.getD false) with ⟨ctrl, err⟩
  rw [hlp] at hl
  simp only at hl
  subst hl
  have hval : validate_input (some ads) = .ok () := by
    simp only [validate_input]
    rw [if_neg]
    simpa [List.length_eq_zero] using hne
  have hrun : run (some inp) env =
      { raised := none, results := rs,
        stats := rs.foldl stepStats Stats.start,
        trace := [] ++ [.launched] ++ loopTrace rs 1 ++
          ((if inp.export_format.getD "json" ≠ "json"
            then [Event.exportTried (inp.export_format.getD "json")] else []) ++
           [.pushedSummary
              (prepare_output (rs.foldl stepStats Stats.start) rs env.now),
            .closeCalled]),
        summary :=
          some (prepare_output (rs.foldl stepStats Stats.start) rs env.now),
        controller := some ctrl,
        world := (closeAttempt env ctrl (worldOf ctrl)).1 } := by
    simp only [run, run_after_sub, heff, htr0, hres, hval, hbt, hlp, hloop,
               List.append_assoc]
  rw [hrun]
  refine ⟨rfl, ?_, hf, ?_⟩
  · exact hf.length_eq.symm
  · refine ⟨[.launched],
      (if inp.export_format.getD "json" ≠ "json"
       then [Event.exportTried (inp.export_format.getD "json")] else []) ++
        [.pushedSummary (prepare_output (rs.foldl stepStats Stats.start) rs env.now),
         .closeCalled], by simp, ?_, ?_⟩
    · intro ev hev
      simp at hev
      subst hev
      rfl
    · intro ev hev
      rcases List.mem_append.mp hev with h1 | h1
      · split at h1
        · simp at h1; subst h1; rfl
        · simp at h1
      · simp at h1
        rcases h1 with rfl | rfl <;> rfl

/-- Witness for C1: a concrete two-action run (the second action fails
under `envHidden`) still yields no raise and exactly two results. -/
theorem C1_witness :
    (run (some inputTwo) envHidden).raised = none ∧
    (run (some inputTwo) envHidden).results.length = 2 := by
  have H := C1_sequential_results envHidden inputTwo [adNavigate, adClickMissing]
    .chromium rfl rfl (by simp) rfl rfl
    (by
      intro ad h
      simp [inputTwo] at h
      rcases h with rfl | rfl
      · exact ⟨_, rfl⟩
      · exact ⟨_, rfl⟩)
  exact ⟨H.1, H.2.1⟩

/-- A run's summary, when one is pushed, is exactly the prepared output
over that run's final stats and results. -/
theorem run_summary_shape (input0 : Option InputDict) (env : Env) :
    (run input0 env).summary = none ∨
    (run input0 env).summary =
      some (prepare_output (run input0 env).stats (run input0 env).results env.now) := by
  unfold run run_after_sub
  split
  · exact Or.inl rfl
  · split
    · exact Or.inl rfl
    · split
      · exact Or.inl rfl
      · split
        · exact Or.inl rfl
        · split
          · exact Or.inl rfl
          · exact Or.inr rfl

/-- C5: every completed run's final summary has
`success = (failed_actions == 0)`, carries the full SessionStats block
and the ordered per-action record list, and a completion timestamp. -/
theorem C5_run_summary (env : Env) (input0 : Option InputDict) (s : Summary)
    (h : (run input0 env).summary = some s) :
    s.success = ((run input0 env).stats.failed_actions == 0) ∧
    s.stats = (run input0 env).stats ∧
    s.actions = (run input0 env).results.map ActionResult.toDict ∧
    s.timestamp = env.now := by
  rcases run_summary_shape input0 env with h0 | h0
  · rw [h0] at h
    exact absurd h (by simp)
  · rw [h0] at h
    injection h with h1
    subst h1
    exact ⟨rfl, rfl, rfl, rfl⟩

/-- Witness for C5 at a concrete completed run. -/
theorem C5_witness :
    ((run (some inputTwo) envOk).summary.getD fallbackSummary).success =
      ((run (some inputTwo) envOk).stats.failed_actions == 0) ∧
    ((run (some inputTwo) envOk).summary.getD fallbackSummary).stats =
      (run (some inputTwo) envOk).stats ∧
    ((run (some inputTwo) envOk).summary.getD fallbackSummary).actions =
      (run (some inputTwo) envOk).results.map ActionResult.toDict ∧
    ((run (some inputTwo) envOk).summary.getD fallbackSummary).timestamp =
      envOk.now :=
  C5_run_summary envOk (some inputTwo) _ (by rfl)

/-- Base64 of a nonempty byte list yields at least one character. -/
theorem b64Chars_ne_nil (bs : List Nat) (h : bs ≠ []) : b64Chars bs ≠ [] := by
  match bs with
  | [] => exact absurd rfl h
  | [a] => simp [b64Chars]
  | [a, b] => simp [b64Chars]
  | a :: b :: c :: rest => simp [b64Chars]

/-- Base64 of a nonempty byte list is a nonempty string. -/
theorem b64encode_ne_empty (bs : List Nat) (h : bs ≠ []) : b64encode bs ≠ "" := by
  unfold b64encode
  intro hc
  have hd : b64Chars bs = [] := by
    have := congrArg String.data hc
    simpa using this
  exact b64Chars_ne_nil bs h hd

/-- No handler other than the screenshot one ever sets
`screenshot_base64`. -/
theorem runHandler_shot_none (env : Env) (a : Action) (h : a.type ≠ .screenshot) :
    ∀ o sh, runHandler env a = .ok (o, sh) → sh = none := by
  obtain ⟨ty, sel?, val?, st?, to?, desc?, meta?⟩ := a
  intro o sh hk
  cases ty
  case screenshot => exact absurd rfl h
  all_goals
    simp only [runHandler, _navigate, _click, _type, _fill, _select, _check, _uncheck,
      _extract_text, _extract_attributes, _wait, _scroll, _hover, _focus, _press_key,
      _get_html, _evaluate, _wait_for_element] at hk
  all_goals repeat' split at hk
  all_goals
    first
    | exact Except.noConfusion hk
    | (injection hk with hp; injection hp with h1 h2; exact h2.symm)

/-- C7: a successful screenshot action increments `screenshots_captured`
by exactly 1, a failed one leaves it unchanged, and no other action type
ever increments it (given that the engine returns a nonempty screenshot
byte payload on success). -/
theorem C7_screenshot_counter (env : Env)
    (hb : ∀ bs, env.screenshotBytes = .ok bs → bs ≠ []) :
    (∀ (st : Stats) (a : Action), a.type = .screenshot →
      ((execute_action env a).success = true →
        (stepStats st (execute_action env a)).screenshots_captured =
          st.screenshots_captured + 1) ∧
      ((execute_action env a).success = false →
        (stepStats st (execute_action env a)).screenshots_captured =
          st.screenshots_captured)) ∧
    (∀ (st : Stats) (a : Action), a.type ≠ .screenshot →
      (stepStats st (execute_action env a)).screenshots_captured =
        st.screenshots_captured) := by
  constructor
  · intro st a ha
    have hrh : runHandler env a = _screenshot env a := by
      simp [runHandler, ha]
    rcases hs : env.screenshotBytes with e | bs
    · have hsucc : (execute_action env a).success = false := by
        simp [execute_action, hrh, _screenshot, hs]
      have hsb : (execute_action env a).screenshot_base64 = none := by
        simp [execute_action, hrh, _screenshot, hs]
      refine ⟨fun hc => absurd hc (by simp [hsucc]), fun _ => ?_⟩
      simp [stepStats, hsb, truthyS]
    · have hsucc : (execute_action env a).success = true := by
        simp [execute_action, hrh, _screenshot, hs]
      have hsb : (execute_action env a).screenshot_base64 = some (b64encode bs) := by
        simp [execute_action, hrh, _screenshot, hs]
      refine ⟨fun _ => ?_, fun hc => absurd hc (by simp [hsucc])⟩
      simp [stepStats, hsb, truthyS, b64encode_ne_empty bs (hb bs hs)]
  · intro st a ha
    have hsb : (execute_action env a).screenshot_base64 = none := by
      rcases hk : runHandler env a with e | p
      · simp [execute_action, hk]
      · obtain ⟨o, sh⟩ := p
        have hsh := runHandler_shot_none env a ha o sh hk
        simp [execute_action, hk, hsh]
    simp [stepStats, hsb, truthyS]

/-- Witness for C7: the screenshot under `envOk` (whose screenshot
payload is two bytes) increments the counter from 0 to 1, and a
non-screenshot action leaves it at 0. -/
theorem C7_witness :
    (stepStats Stats.start (execute_action envOk actShot)).screenshots_captured =
      Stats.start.screenshots_captured + 1 ∧
    (stepStats Stats.start (execute_action envOk actClickMissing)).screenshots_captured =
      Stats.start.screenshots_captured := by
  have hb : ∀ bs, envOk.screenshotBytes = .ok bs → bs ≠ [] := by
    intro bs h
    injection h with h1
    rw [← h1]
    simp
  have H := C7_screenshot_counter envOk hb
  exact ⟨(H.1 Stats.start actShot rfl).1 (by decide),
         H.2 Stats.start actClickMissing (by decide)⟩

/-- A close attempt that caught nothing, starting from the resource state
a (possibly partial) launch left behind, releases everything. -/
theorem closeAttempt_clean (env : Env) (c : Controller)
    (h : (closeAttempt env c (worldOf c)).2 = none) :
    closeAttempt env c (worldOf c) = (⟨false, false, false⟩, none) := by
  obtain ⟨cp, cb, cc, cpg⟩ := c
  rcases h1 : env.closeContext true with e1 | u1 <;>
  rcases h2 : env.closeBrowser true with e2 | u2 <;>
  rcases h3 : env.stopPlaywright true with e3 | u3 <;>
  cases cc <;> cases cb <;> cases cp <;>
  simp_all [closeAttempt, worldOf]

/-- Closing when everything is already released is a no-op when the
engine treats closing a closed resource as a silent success. -/
theorem closeAttempt_closed (env : Env) (c : Controller)
    (hc1 : env.closeContext false = .ok ())
    (hc2 : env.closeBrowser false = .ok ())
    (hc3 : env.stopPlaywright false = .ok ()) :
    closeAttempt env c ⟨false, false, false⟩ = (⟨false, false, false⟩, none) := by
  obtain ⟨cp, cb, cc, cpg⟩ := c
  cases cc <;> cases cb <;> cases cp <;>
  simp_all [closeAttempt]

/-- C6: `close` never raises, whatever resources the (possibly
partially failed) launch left behind and whatever the engine's close
primitives do; after a first clean release a second close is a no-op
(given the engine closes already-closed resources silently); and the
run's `finally` block attempts close exactly when a controller was
created. -/
theorem C6_close_idempotent_safe :
    (∀ (env : Env) (c : Controller) (w : World), ∃ w', close env c w = .ok w') ∧
    (∀ (env : Env) (c : Controller),
      env.closeContext false = .ok () → env.closeBrowser false = .ok () →
      env.stopPlaywright false = .ok () →
      (closeAttempt env c (worldOf c)).2 = none →
      closeAttempt env c ((closeAttempt env c (worldOf c)).1) =
        ((closeAttempt env c (worldOf c)).1, none)) ∧
    (∀ (input0 : Option InputDict) (env : Env),
      (run input0 env).controller.isSome = true ↔
        Event.closeCalled ∈ (run input0 env).trace) := by
  refine ⟨?_, ?_, ?_⟩
  · intro env c w
    exact ⟨(closeAttempt env c w).1, rfl⟩
  · intro env c hc1 hc2 hc3 hclean
    rw [closeAttempt_clean env c hclean]
    exact closeAttempt_closed env c hc1 hc2 hc3
  · intro input0 env
    unfold run run_after_sub
    split
    · simp [subTrace]
    · split
      · simp [subTrace]
      · split
        · simp [subTrace]
        · split
          · simp
          · split <;> simp

/-- Witness for C6's idempotence part: a controller whose launch failed
after the context was created (page missing), closed twice under a
concrete engine. -/
theorem C6_witness :
    closeAttempt envOk ⟨true, true, true, false⟩
        ((closeAttempt envOk ⟨true, true, true, false⟩
            (worldOf ⟨true, true, true, false⟩)).1) =
      ((closeAttempt envOk ⟨true, true, true, false⟩
          (worldOf ⟨true, true, true, false⟩)).1, none) :=
  C6_close_idempotent_safe.2.1 envOk ⟨true, true, true, false⟩ rfl rfl rfl (by decide)

/-- C8 counterexample: an input naming an unknown template but carrying
no nonempty actions array is replaced by the built-in default input
before the template branch runs, so no TemplateError is raised — the run
completes the four default actions instead of aborting. -/
theorem C8_counterexample :
    (run (some inputTemplateOnly) envOk).raised = none ∧
    (run (some inputTemplateOnly) envOk).results.length = 4 ∧
    Event.substitutedDefault ∈ (run (some inputTemplateOnly) envOk).trace := by
  refine ⟨by decide, by decide, by decide⟩

/-- C8 (amended): for a run input that the default-input substitution
leaves intact (a nonempty actions array) and that names a template on
which the template generator raises (unknown name, or a known name with
a required parameter missing), the run aborts with a fatal
"Template error" before any action executes and before any launch, and
pushes a top-level failure carrying the all-zero statistics. The last
two conjuncts exhibit the generator's two raising cases. -/
theorem C8_template_error_fatal (env : Env) (inp : InputDict) (tn e : String)
    (hact : truthyActions inp.actions = true)
    (htpl : inp.template = some tn) (htn : tn ≠ "")
    (hget : TemplateManager.get_template tn inp.template_params = .error e) :
    (run (some inp) env).raised = some ("Template error: " ++ e) ∧
    (run (some inp) env).results = [] ∧
    (run (some inp) env).stats = Stats.start ∧
    (run (some inp) env).controller.isSome = false ∧
    Event.launched ∉ (run (some inp) env).trace ∧
    (∀ i, Event.actionStart i ∉ (run (some inp) env).trace) ∧
    (∀ r, Event.pushedResult r ∉ (run (some inp) env).trace) ∧
    Event.pushedFailure ("Template error: " ++ e) Stats.start ∈
      (run (some inp) env).trace ∧
    (∀ (t : String) (p : Params),
      t ∉ (["amazon_product_search", "google_search", "linkedin_profile",
            "twitter_scrape", "google_maps_business"] : List String) →
      TemplateManager.get_template t p = .error ("Unknown template: " ++ t)) ∧
    (∀ p : Params, truthyV (p "search_query") = false →
      TemplateManager.get_template "google_search" p =
        .error "search_query is required for google_search template") := by
  have heff : effInput (some inp) = inp := by
    simp [effInput, subInput, hact]
  have htr0 : subTrace (some inp) = [] := by
    simp [subTrace, subInput, hact]
  have hres : resolve_actions inp = .error ("Template error: " ++ e) := by
    simp [resolve_actions, htpl, truthyS, htn, hget]
  have hrun : run (some inp) env =
      { raised := some ("Template error: " ++ e), results := [],
        stats := Stats.start,
        trace := [] ++ [.pushedFailure ("Template error: " ++ e) Stats.start],
        summary := none, controller := none,
        world := ⟨false, false, false⟩ } := by
    simp only [run, run_after_sub, heff, htr0, hres]
  rw [hrun]
  refine ⟨rfl, rfl, rfl, rfl, by simp, by simp, by simp, by simp, ?_, ?_⟩
  · intro t p hmem
    simp only [List.mem_cons, List.mem_singleton, not_or] at hmem
    obtain ⟨h1, h2, h3, h4, h5, _⟩ := hmem
    simp [TemplateManager.get_template, h1, h2, h3, h4, h5]
  · intro p hp
    have hq : (getParam p "search_query" (Value.s "")).truthy = false := by
      unfold getParam
      cases hqq : p "search_query" with
      | none => simp [Value.truthy]
      | some v =>
        rw [hqq] at hp
        simp only [truthyV] at hp
        simpa using hp
    simp [TemplateManager.get_template, _google_search, hq]

/-- Witness for C8's amended theorem: an unknown template next to a
nonempty actions array aborts the run with the wrapped message and zero
statistics. -/
theorem C8_witness :
    (run (some inputTemplateBad) envOk).raised =
      some ("Template error: " ++ "Unknown template: bogus_template") ∧
    (run (some inputTemplateBad) envOk).results = [] ∧
    (run (some inputTemplateBad) envOk).stats = Stats.start ∧
    Event.pushedFailure ("Template error: " ++ "Unknown template: bogus_template")
      Stats.start ∈ (run (some inputTemplateBad) envOk).trace := by
  have H := C8_template_error_fatal envOk inputTemplateBad "bogus_template"
    "Unknown template: bogus_template" rfl rfl (by decide) rfl
  exact ⟨H.1, H.2.1, H.2.2.1, H.2.2.2.2.2.2.2.1⟩

/-- C10: a missing, empty, or actions-less run input (with no template
named) does not fail validation: the run substitutes the fixed default
input and executes exactly its four actions (navigate to
https://example.com, get_title, extract_text on h1, screenshot), even
though an explicitly supplied empty actions array is rejected by
`_validate_input`. -/
theorem C10_default_input_substitution (env : Env) (input0 : Option InputDict)
    (hcond : input0 = none ∨
      ∃ d, input0 = some d ∧ truthyActions d.actions = false ∧ d.template = none)
    (hl : (launch env .chromium false).2 = none) :
    Event.substitutedDefault ∈ (run input0 env).trace ∧
    (run input0 env).raised = none ∧
    (run input0 env).results = defaultParsed.map (execute_action env) ∧
    (run input0 env).results.length = 4 ∧
    defaultActions.mapM parseAction = .ok defaultParsed ∧
    validate_input (some []) = .error "'actions' array cannot be empty" := by
  have hsub : subInput input0 = true := by
    rcases hcond with rfl | ⟨d, rfl, hd, _⟩
    · rfl
    · simp [subInput, hd]
  have heff : effInput input0 = defaultInput := by
    simp [effInput, hsub]
  have htr0 : subTrace input0 = [.substitutedDefault] := by
    simp [subTrace, hsub]
  have hres : resolve_actions defaultInput = .ok defaultActions := rfl
  have hval : validate_input (some defaultActions) = .ok () := rfl
  have hbt : parseBrowserType (defaultInput.browser_type.getD "chromium") =
      .ok .chromium := rfl
  rcases hlp : launch env .chromium false with ⟨ctrl, err⟩
  rw [hlp] at hl
  simp only at hl
  subst hl
  have hloop : runLoop env defaultActions 1 Stats.start =
      (defaultParsed.map (execute_action env),
       (defaultParsed.map (execute_action env)).foldl stepStats Stats.start,
       loopTrace (defaultParsed.map (execute_action env)) 1, none) := rfl
  have hstealth : defaultInput.stealth_mode.getD false = false := rfl
  simp only [run, run_after_sub, heff, htr0, hres, hval, hbt, hstealth, hlp, hloop]
  refine ⟨by simp, ?_, ?_, ?_, ?_, ?_⟩ <;> trivial

/-- Witness for C10: the missing-input run under a concrete engine. -/
theorem C10_witness :
    Event.substitutedDefault ∈ (run none envOk).trace ∧
    (run none envOk).raised = none ∧
    (run none envOk).results.length = 4 ∧
    validate_input (some []) = .error "'actions' array cannot be empty" := by
  have H := C10_default_input_substitution envOk none (Or.inl rfl) rfl
  exact ⟨H.1, H.2.1, H.2.2.2.1, H.2.2.2.2.2⟩

end PlaywrightMCP
